import Mathlib

/-
Verification development for the Haiti crisis dashboard repository
(harvester.py, processor.py, database.py, dashboard.py).

The Python sources are shallowly embedded below.  Values that flow out of
json.loads are modelled by the inductive JVal; dynamic Python behaviour
(truthiness, isinstance checks, str(), attribute errors on missing
methods) is made explicit.  Fallible Python code paths are modelled with
Except (an .error result is an uncaught Python exception) or Option.
-/

set_option maxRecDepth 4096

namespace Haiti

/-- Values produced by Python json.loads, plus the bool/int distinction
Python makes (bool is a subclass of int).  Floats are represented by
exact rationals, which is faithful for every literal appearing in this
repository. -/
inductive JVal where
  | null : JVal
  | bool (b : Bool) : JVal
  | int (n : Int) : JVal
  | float (q : ℚ) : JVal
  | str (s : String) : JVal
  | arr (xs : List JVal) : JVal
  | obj (kvs : List (String × JVal)) : JVal

/-- Python truthiness of a json.loads value: None, False, 0, 0.0, empty
string, empty list and empty dict are falsy. -/
def pyTruthy : JVal → Bool
  | .null => false
  | .bool b => b
  | .int n => n != 0
  | .float q => q != 0
  | .str s => s != ""
  | .arr xs => !xs.isEmpty
  | .obj kvs => !kvs.isEmpty

/-- Python isinstance(v, int): true for ints and for bools (bool is a
subclass of int), false for floats and everything else. -/
def pyIsInstanceInt : JVal → Bool
  | .int _ => true
  | .bool _ => true
  | _ => false

/-- Numeric value used when a JVal meeting pyIsInstanceInt is compared or
converted with int(): True counts as 1, False as 0.  (Only meaningful on
ints and bools; other cases are never reached by the embedded code.) -/
def pyToInt : JVal → Int
  | .int n => n
  | .bool b => if b then 1 else 0
  | .float q => q.num.tdiv (q.den : Int)
  | _ => 0

/-- dict.get(k, d) on a json.loads object: the value bound to k, or the
default d.  json.loads produces dicts with unique keys, so first-match
lookup is faithful. -/
def pyGet (kvs : List (String × JVal)) (k : String) (d : JVal) : JVal :=
  match kvs.find? (fun p => p.1 == k) with
  | some p => p.2
  | none => d

/-- dict[k] = v on a json.loads object: replace the binding of k in
place (json.loads dicts carry unique keys), or append a new binding when
k is absent. -/
def pySet : List (String × JVal) → String → JVal → List (String × JVal)
  | [], k, v => [(k, v)]
  | p :: rest, k, v => if p.1 == k then (p.1, v) :: rest else p :: pySet rest k v

/-- Python str.lower() restricted to the Latin-1 range, which covers
every character this repository compares (ASCII plus the accented
letters of the Haitian gazetteer). -/
def pyCharLower (c : Char) : Char :=
  if 65 ≤ c.toNat ∧ c.toNat ≤ 90 then Char.ofNat (c.toNat + 32)
  else if 192 ≤ c.toNat ∧ c.toNat ≤ 222 ∧ c.toNat ≠ 215 then Char.ofNat (c.toNat + 32)
  else c

/-- Python s.lower() on a whole string. -/
def pyLower (s : String) : String :=
  String.mk (s.toList.map pyCharLower)

/-- True when the first list is an initial segment of the second. -/
def leadMatch : List Char → List Char → Bool
  | [], _ => true
  | _ :: _, [] => false
  | a :: as, b :: bs => a == b && leadMatch as bs

/-- True when pat occurs contiguously somewhere in hay. -/
def subScan (pat : List Char) : List Char → Bool
  | [] => pat.isEmpty
  | hay@(_ :: rest) => leadMatch pat hay || subScan pat rest

/-- Python substring membership test: pat in hay. -/
def strContains (hay pat : String) : Bool :=
  subScan pat.toList hay.toList

/-- Python s.strip(): remove leading and trailing whitespace. -/
def pyStrip (s : String) : String :=
  String.mk (((s.toList.dropWhile Char.isWhitespace).reverse.dropWhile
    Char.isWhitespace).reverse)

/-- Decimal digits of a proper fraction r/d by long division, stopping
at a zero remainder (every coordinate in this repository terminates
within four digits); the fuel bound mirrors the maximum number of
significant digits Python float repr can emit. -/
def fracLoop : Nat → Nat → Nat → List Char
  | 0, _, _ => []
  | _ + 1, 0, _ => []
  | fuel + 1, r, d => Char.ofNat (48 + (r * 10) / d) :: fracLoop fuel ((r * 10) % d) d

/-- Decimal rendering of a rational, matching Python float repr on the
terminating-decimal coordinate values of this repository (trailing
zeros trimmed, at least one fractional digit). -/
def floatRepr (q : ℚ) : String :=
  (if q.num < 0 then "-" else "") ++ toString (q.num.natAbs / q.den) ++ "." ++
    (match fracLoop 17 (q.num.natAbs % q.den) q.den with
     | [] => "0"
     | ds => String.mk ds)

/-- Python repr of a string: wrapped in single quotes (escaping of inner
quotes is not modelled; no embedded value here contains one). -/
def quoteStr (s : String) : String := "\x27" ++ s ++ "\x27"

mutual
/-- Python repr() of a json.loads value. -/
def pyRepr : JVal → String
  | .null => "None"
  | .bool b => if b then "True" else "False"
  | .int n => toString n
  | .float q => floatRepr q
  | .str s => quoteStr s
  | .arr xs => "[" ++ String.intercalate ", " (pyReprList xs) ++ "]"
  | .obj kvs => "\x7b" ++ String.intercalate ", " (pyReprKvs kvs) ++ "\x7d"

/-- repr() of the elements of a list. -/
def pyReprList : List JVal → List String
  | [] => []
  | x :: xs => pyRepr x :: pyReprList xs

/-- repr() of the entries of a dict. -/
def pyReprKvs : List (String × JVal) → List String
  | [] => []
  | (k, v) :: xs => (quoteStr k ++ ": " ++ pyRepr v) :: pyReprKvs xs
end

/-- Python str() of a json.loads value: the string itself for strings,
repr-like rendering otherwise (str and repr agree on non-strings). -/
def pyStr : JVal → String
  | .str s => s
  | v => pyRepr v

/-- Python expression pattern used by both classifiers:
if isinstance(x, list): x = ", ".join(x) -- join raises TypeError on a
list holding a non-string, which the model surfaces as .error. -/
def pyJoinIfList : JVal → Except String JVal
  | .arr xs =>
    if xs.all (fun v => match v with | .str _ => true | _ => false) then
      .ok (.str (String.intercalate ", "
        (xs.filterMap (fun v => match v with | .str s => some s | _ => none))))
    else
      .error "TypeError: sequence item is not str"
  | v => .ok v

/-- Shared severity validation of harvester.py lines 188-190 and
processor.py lines 139-141: keep the value only when it is a Python int
(bools included) between 1 and 5, else replace it with 3. -/
def pySeverityCheck (v : JVal) : JVal :=
  if pyIsInstanceInt v && decide (1 ≤ pyToInt v) && decide (pyToInt v ≤ 5) then v
  else .int 3

/-- Outcome of one generate_content call followed by fence stripping and
json.loads: either an exception (network failure or unparsable text) or
a parsed JSON value. -/
inductive LLMOutcome where
  | fail : LLMOutcome
  | parsed (v : JVal) : LLMOutcome

/- ===================== harvester.py ===================== -/

/-- harvester.py lines 43-47: conflict-indicating keyword set. -/
def conflict_keywords : List String :=
  ["gang", "shooting", "kidnap", "abduction", "armed", "conflict", "clash",
   "gunfire", "assassination", "homicide", "extortion", "looting", "blockade",
   "roadblock", "insecurity", "violence", "attack", "crossfire", "rape", "sexual violence"]

/-- harvester.py lines 48-51: disaster-indicating keyword set. -/
def disaster_keywords : List String :=
  ["earthquake", "tremor", "flood", "hurricane", "storm", "cyclone", "tropical storm",
   "landslide", "mudslide", "rainstorm", "drought", "wildfire", "tsunami", "aftershock"]

/-- harvester.py lines 31-40: the flat gazetteer scanned by
detect_location_fallback, in source order. -/
def haiti_locations : List String :=
  ["Cité Soleil", "Cite Soleil", "Martissant", "Bel Air", "Belair",
   "Delmas", "Pétion-Ville", "Petion-Ville", "Carrefour", "Tabarre",
   "Croix-des-Bouquets", "Croix des Bouquets", "Port-au-Prince",
   "Gonaïves", "Gonaives", "Cap-Haïtien", "Cap-Haitien", "Saint-Marc",
   "Les Cayes", "Jacmel", "Jérémie", "Jeremie", "Hinche",
   "La Saline", "Village de Dieu", "Boston", "Léogâne", "Leogane",
   "Artibonite", "Nord", "Sud", "Ouest", "Centre", "Nippes", "Sud-Est",
   "Nord-Est", "Grande-Anse", "Miragoâne", "Miragoane"]

/-- harvester.py classify_with_enhanced_ai, post-parse part (lines
186-196): on a parsed JSON dict, validate severity in place and return
the dict; any other parse outcome (network error, unparsable text, or a
non-dict value, whose .get raises AttributeError) is caught by the
enclosing except and yields None. -/
def classify_with_enhanced_ai (o : LLMOutcome) : Option (List (String × JVal)) :=
  match o with
  | .parsed (.obj kvs) =>
      some (pySet kvs "severity" (pySeverityCheck (pyGet kvs "severity" (.int 3))))
  | _ => none

/-- harvester.py lines 199-204: first gazetteer name whose lowercase
form occurs in the lowercased text. -/
def detect_location_fallback (text : String) : Option String :=
  haiti_locations.find? (fun loc => strContains (pyLower text) (pyLower loc))

/-- harvester.py lines 334-348: the variant-to-canonical event mapping,
in dict insertion order. -/
def eventMapping : List (String × String) :=
  [("violence", "violence"), ("armed_violence", "violence"), ("attack", "violence"),
   ("shooting", "violence"), ("kidnapping", "kidnapping"), ("kidnap", "kidnapping"),
   ("abduction", "kidnapping"), ("sexual_violence", "sexual_violence"),
   ("rape", "sexual_violence"), ("displacement", "displacement"),
   ("protest", "protest"), ("looting", "looting"), ("roadblock", "roadblock")]

/-- harvester.py line 350: disaster cues looked for inside the event
type string itself. -/
def disasterCues : List String :=
  ["earthquake", "flood", "hurricane", "storm", "cyclone", "landslide", "drought", "tsunami"]

/-- harvester.py normalize_event_type (lines 329-359). -/
def normalize_event_type (event_type : JVal) (text : String) : String :=
  if !pyTruthy event_type then "other"
  else
    let e := pyLower (pyStr event_type)
    if disasterCues.any (fun d => strContains e d)
        || disaster_keywords.any (fun d => strContains (pyLower text) d) then
      "natural_disaster"
    else
      match eventMapping.find? (fun kv => strContains e kv.1) with
      | some kv => kv.2
      | none =>
        if conflict_keywords.any (fun k => strContains (pyLower text) k) then "violence"
        else if e == "" then "other" else e

/-- harvester.py is_conflict_related (lines 361-366). -/
def is_conflict_related (normalized_event_type : String) (text : String) : Bool :=
  if normalized_event_type == "natural_disaster" then false
  else if ["violence", "kidnapping", "sexual_violence", "displacement",
           "protest", "looting", "roadblock"].contains normalized_event_type then true
  else conflict_keywords.any (fun k => strContains (pyLower text) k)

/-- The dict built by extract_content_text (harvester.py lines 149-156). -/
structure ContentData where
  text : String
  title : String
  source : String
  content_type : String
  created_date : String
  url : String

/-- The processed dict returned by process_single_item (harvester.py
lines 250-261). severity is kept as the dynamic value the Python dict
holds (an int, or a bool that SQLite later binds as 0/1). -/
structure HarvRecord where
  text : String
  title : String
  event_type : String
  location_text : String
  location_coords : Option String
  source : String
  content_type : String
  severity : JVal
  created_date : String
  url : String

/-- harvester.py lines 241-261: the tail of process_single_item shared
by the AI and fallback branches -- geocode when a location exists,
normalize the event type, drop non-conflict items, else build the
record. geo models the external Nominatim lookup of get_coordinates. -/
def finishItem (geo : String → Option String) (cd : ContentData)
    (event_type : JVal) (location_text : String) (severity : JVal) : Option HarvRecord :=
  if !is_conflict_related (normalize_event_type event_type cd.text) cd.text then none
  else some
    { text := cd.text, title := cd.title,
      event_type := normalize_event_type event_type cd.text,
      location_text := location_text,
      location_coords := if location_text != "" then geo location_text else none,
      source := cd.source, content_type := cd.content_type,
      severity := severity, created_date := cd.created_date, url := cd.url }

/-- harvester.py process_single_item (lines 207-261).  The result is
.ok none when the item is dropped, .ok (some record) when a record is
produced, and .error when an uncaught Python exception escapes (the
", ".join TypeError on a list of non-strings, or .strip on a non-string
location). -/
def process_single_item (geo : String → Option String) (ao : LLMOutcome)
    (content_data : Option ContentData) : Except String (Option HarvRecord) :=
  match content_data with
  | none => .ok none
  | some cd =>
    if cd.text.length < 20 then .ok none
    else
      match classify_with_enhanced_ai ao with
      | some kvs =>
        match pyJoinIfList (pyGet kvs "event_type" (.str "other")) with
        | .error e => .error e
        | .ok etv =>
          match pyGet kvs "location" (.str "") with
          | .str loc0 =>
            .ok (finishItem geo cd etv
              (if pyLower (pyStrip loc0) == "haiti" || pyStrip loc0 == "" then
                match detect_location_fallback cd.text with
                | some fb => fb
                | none => loc0
              else loc0)
              (pyGet kvs "severity" (.int 3)))
          | _ => .error "AttributeError: strip on non-string location"
      | none =>
        .ok (finishItem geo cd (.str "other")
          ((detect_location_fallback cd.text).getD "") (.int 3))

/-- One row of the reports table, with the column set written by the two
ingestion paths (database.py lines 14-37; columns this repository never
writes are omitted). -/
structure DBRow where
  timestamp : String
  raw_text : String
  title : String
  event_type : String
  location_text : String
  location_coords : Option String
  latitude : Option ℚ
  longitude : Option ℚ
  location_metadata : Option String
  source_name : String
  content_type : String
  severity : Int
  report_url : Option String
  created_date : String
deriving DecidableEq

/-- harvester.py store_content (lines 276-326): when the record carries
a non-empty url and a row with that report_url already exists, skip the
insert and return False; otherwise insert one row (the harvester INSERT
leaves latitude, longitude and location_metadata NULL) and return True.
now models datetime.now().isoformat(). -/
def store_content (now : String) (r : HarvRecord) (db : List DBRow) : Bool × List DBRow :=
  if r.url != "" && db.any (fun row => row.report_url == some r.url) then
    (false, db)
  else
    let row : DBRow :=
      { timestamp := now, raw_text := r.text, title := r.title,
        event_type := r.event_type, location_text := r.location_text,
        location_coords := r.location_coords, latitude := none, longitude := none,
        location_metadata := none, source_name := r.source,
        content_type := r.content_type, severity := pyToInt r.severity,
        report_url := some r.url, created_date := r.created_date }
    (true, db ++ [row])

/-- Number of rows of the table carrying a given report_url. -/
def countUrl (db : List DBRow) (u : String) : Nat :=
  (db.filter (fun row => row.report_url == some u)).length

/- ===================== processor.py ===================== -/

/-- One entry of the HAITI_LOCATIONS knowledge base of processor.py
(lines 16-49): dict key, name variants, location type, parent. -/
structure GazEntry where
  key : String
  names : List String
  ltype : String
  parent : String

/-- processor.py lines 16-49, in dict insertion order. -/
def HAITI_LOCATIONS : List GazEntry :=
  [⟨"cite_soleil", ["Cité Soleil", "Cite Soleil", "Soleil"], "neighborhood", "Port-au-Prince"⟩,
   ⟨"martissant", ["Martissant"], "neighborhood", "Port-au-Prince"⟩,
   ⟨"bel_air", ["Bel Air", "Belair"], "neighborhood", "Port-au-Prince"⟩,
   ⟨"delmas", ["Delmas"], "neighborhood", "Port-au-Prince"⟩,
   ⟨"petion_ville", ["Pétion-Ville", "Petion-Ville", "Petionville"], "neighborhood", "Port-au-Prince"⟩,
   ⟨"carrefour", ["Carrefour"], "neighborhood", "Port-au-Prince"⟩,
   ⟨"tabarre", ["Tabarre"], "neighborhood", "Port-au-Prince"⟩,
   ⟨"croix_des_bouquets", ["Croix-des-Bouquets", "Croix des Bouquets"], "commune", "Ouest"⟩,
   ⟨"kenscoff", ["Kenscoff", "Kenskoff"], "commune", "Ouest"⟩,
   ⟨"gressier", ["Gressier"], "commune", "Ouest"⟩,
   ⟨"grand_goave", ["Grand-Goâve", "Grand Goave"], "commune", "Ouest"⟩,
   ⟨"leogane", ["Léogâne", "Leogane"], "commune", "Ouest"⟩,
   ⟨"gonaives", ["Gonaïves", "Gonaives"], "city", "Artibonite"⟩,
   ⟨"saint_marc", ["Saint-Marc", "Saint Marc"], "city", "Artibonite"⟩,
   ⟨"dessalines", ["Dessalines"], "commune", "Artibonite"⟩,
   ⟨"ponte_sonde", ["Ponte-Sondé", "Ponte Sonde"], "commune", "Artibonite"⟩,
   ⟨"cap_haitien", ["Cap-Haïtien", "Cap-Haitien", "Cap Haitien", "Le Cap"], "city", "Nord"⟩,
   ⟨"fort_dauphin", ["Fort-Dauphin", "Fort Dauphin"], "commune", "Nord"⟩,
   ⟨"ouanaminthe", ["Ouanaminthe"], "commune", "Nord"⟩,
   ⟨"fort_liberte", ["Fort-Liberté", "Fort Liberte"], "commune", "Nord-Est"⟩,
   ⟨"les_cayes", ["Les Cayes", "Cayes"], "city", "Sud"⟩,
   ⟨"jeremie", ["Jérémie", "Jeremie"], "city", "Grande-Anse"⟩,
   ⟨"hinche", ["Hinche"], "city", "Centre"⟩,
   ⟨"mirebalais", ["Mirebalais"], "commune", "Centre"⟩,
   ⟨"miragoane", ["Miragoâne", "Miragoane"], "city", "Nippes"⟩,
   ⟨"jacmel", ["Jacmel"], "city", "Sud-Est"⟩,
   ⟨"la_saline", ["La Saline", "Lasaline"], "slum", "Port-au-Prince"⟩,
   ⟨"boston", ["Boston"], "neighborhood", "Port-au-Prince"⟩,
   ⟨"village_de_dieu", ["Village de Dieu"], "slum", "Port-au-Prince"⟩,
   ⟨"tokyo", ["Tokyo"], "neighborhood", "Port-au-Prince"⟩,
   ⟨"wharf_jeremie", ["Wharf Jérémie", "Wharf Jeremie"], "neighborhood", "Port-au-Prince"⟩,
   ⟨"port_au_prince", ["Port-au-Prince", "Port au Prince"], "city", "Ouest"⟩]

/-- The dict appended per match inside find_specific_haiti_location
(processor.py lines 59-64). -/
structure LocMatch where
  name : String
  ltype : String
  parent : String
  key : String
deriving DecidableEq

/-- Insert a into a sorted list, before the first element it relates to
by le -- equal elements keep their original relative order. -/
def sInsert (le : LocMatch → LocMatch → Bool) (a : LocMatch) :
    List LocMatch → List LocMatch
  | [] => [a]
  | b :: bs => if le a b then a :: b :: bs else b :: sInsert le a bs

/-- Stable insertion sort, modelling Python list.sort (which is stable,
also with reverse=True). -/
def stableSort (le : LocMatch → LocMatch → Bool) : List LocMatch → List LocMatch
  | [] => []
  | a :: rest => sInsert le a (stableSort le rest)

/-- processor.py line 67: priority_order for location types. -/
def priority_order (t : String) : Nat :=
  if t == "slum" then 4
  else if t == "neighborhood" then 3
  else if t == "commune" then 2
  else if t == "city" then 1
  else 0

/-- processor.py find_specific_haiti_location (lines 51-71): gather all
variant matches in knowledge-base order, stable-sort by descending type
priority (Python list.sort with reverse=True is stable), take the first. -/
def find_specific_haiti_location (text : String) : Option LocMatch :=
  let tl := pyLower text
  let found := HAITI_LOCATIONS.flatMap (fun e =>
    e.names.filterMap (fun nv =>
      if strContains tl (pyLower nv) then
        some { name := nv, ltype := e.ltype, parent := e.parent, key := e.key }
      else none))
  if found.isEmpty then none
  else (stableSort (fun a b => priority_order b.ltype ≤ priority_order a.ltype) found).head?

/-- The validated dict returned by process_with_gemini_pro (processor.py
lines 143-147): str event_type, str location, int severity. -/
structure Classification where
  event_type : String
  location : String
  severity : Int
deriving DecidableEq

/-- processor.py lines 130-147: field coercion after JSON parsing --
lists collapse to their first element (or the default when empty),
event_type and location pass through str(), severity through the
[1,5]-or-3 validation and int(). -/
def cleanParsed (kvs : List (String × JVal)) : Classification :=
  { event_type := pyStr (match pyGet kvs "event_type" (.str "other") with
      | .arr [] => JVal.str "other"
      | .arr (x :: _) => x
      | v => v),
    location := pyStr (match pyGet kvs "location" (.str "") with
      | .arr [] => JVal.str ""
      | .arr (x :: _) => x
      | v => v),
    severity := pyToInt (pySeverityCheck (pyGet kvs "severity" (.int 3))) }

/-- One retry-loop iteration of process_with_gemini_pro (processor.py
lines 107-152): none models an exception caught by the except (network
failure, json.loads failure, or .get raising AttributeError on a
non-container value); a JSON array is accepted when its first element is
a dict, and otherwise answers the fixed fallback dict by an explicit
return. -/
def processAttempt (o : LLMOutcome) : Option Classification :=
  match o with
  | .fail => none
  | .parsed v =>
    match v with
    | .obj kvs => some (cleanParsed kvs)
    | .arr ((.obj kvs) :: _) => some (cleanParsed kvs)
    | .arr _ => some { event_type := "other", location := "", severity := 3 }
    | _ => none

/-- processor.py process_with_gemini_pro (lines 73-154), as a function
of the outcome of each attempt of its bounded retry loop: the first
successful attempt wins; an exception on the last attempt yields the
fixed fallback; with zero attempts Python falls off the loop and
returns None. -/
def process_with_gemini_pro : List LLMOutcome → Option Classification
  | [] => none
  | [o] => some ((processAttempt o).getD { event_type := "other", location := "", severity := 3 })
  | o :: rest =>
    match processAttempt o with
    | some c => some c
    | none => process_with_gemini_pro rest

/-- One row of the static location_hierarchy table seeded by database.py
(lines 98-117); only the columns read back by the processor lookup are
kept. -/
structure HierRow where
  location_name : String
  latitude : ℚ
  longitude : ℚ

/-- database.py lines 98-117: the 18 seeded locations. -/
def location_hierarchy : List HierRow :=
  [⟨"Cité Soleil", mkRat (185944) 10000, mkRat (-723251) 10000⟩,
   ⟨"Martissant", mkRat (185089) 10000, mkRat (-723570) 10000⟩,
   ⟨"Bel Air", mkRat (185463) 10000, mkRat (-723387) 10000⟩,
   ⟨"Delmas", mkRat (185456) 10000, mkRat (-723084) 10000⟩,
   ⟨"Pétion-Ville", mkRat (185125) 10000, mkRat (-722851) 10000⟩,
   ⟨"La Saline", mkRat (185539) 10000, mkRat (-723478) 10000⟩,
   ⟨"Village de Dieu", mkRat (185200) 10000, mkRat (-723600) 10000⟩,
   ⟨"Carrefour", mkRat (185417) 10000, mkRat (-723958) 10000⟩,
   ⟨"Tabarre", mkRat (185833) 10000, mkRat (-722833) 10000⟩,
   ⟨"Croix-des-Bouquets", mkRat (185833) 10000, mkRat (-722167) 10000⟩,
   ⟨"Léogâne", mkRat (185167) 10000, mkRat (-726333) 10000⟩,
   ⟨"Gonaïves", mkRat (194500) 10000, mkRat (-726900) 10000⟩,
   ⟨"Saint-Marc", mkRat (191167) 10000, mkRat (-727000) 10000⟩,
   ⟨"Cap-Haïtien", mkRat (197667) 10000, mkRat (-722000) 10000⟩,
   ⟨"Les Cayes", mkRat (182000) 10000, mkRat (-737500) 10000⟩,
   ⟨"Jacmel", mkRat (182333) 10000, mkRat (-725333) 10000⟩,
   ⟨"Jérémie", mkRat (186500) 10000, mkRat (-741167) 10000⟩,
   ⟨"Hinche", mkRat (191500) 10000, mkRat (-719833) 10000⟩]

/-- processor.py get_location_coordinates (lines 156-179): resolve the
location through the knowledge base, then read latitude and longitude
from the location_hierarchy table by exact canonical name; anything
unresolved yields (None, None). -/
def get_location_coordinates (location_text : String) : Option ℚ × Option ℚ :=
  if location_text == "" then (none, none)
  else
    match find_specific_haiti_location location_text with
    | some m =>
      match location_hierarchy.find? (fun e => e.location_name == m.name) with
      | some e => (some e.latitude, some e.longitude)
      | none => (none, none)
    | none => (none, none)

/-- json.dumps of the location metadata dict (processor.py lines
208-212). -/
def jsonDumpsMeta (t p prec : String) : String :=
  "\x7b\"type\": \"" ++ t ++ "\", \"parent\": \"" ++ p
    ++ "\", \"precision\": \"" ++ prec ++ "\"\x7d"

/-- processor.py line 234: raw_text[:100] + "..." when longer than 100
characters. -/
def pyTitleTrunc (raw : String) : String :=
  if raw.length > 100 then (raw.take 100) ++ "..." else raw

/-- Python x or d on an optional string: d when x is None or empty. -/
def pyOrStr (o : Option String) (d : String) : String :=
  match o with
  | some s => if s == "" then d else s
  | none => d

/-- processor.py line 205: location_coords = f"lat,lon" if latitude and
longitude else None -- Python truthiness makes a None or 0.0 coordinate
yield None. -/
def mkLocationCoords (p : Option ℚ × Option ℚ) : Option String :=
  match p.1, p.2 with
  | some la, some lo =>
    if la ≠ 0 ∧ lo ≠ 0 then some (floatRepr la ++ "," ++ floatRepr lo) else none
  | _, _ => none

/-- processor.py process_and_store_report (lines 181-255).  attempts
models the retry loop of the Gemini call, now models
datetime.now().isoformat().  The function performs no length filter and
no report_url de-duplication: it always appends one row on the success
path.  The .error case (zero attempts) models the AttributeError that
ai_result.get would raise on None. -/
def process_and_store_report (attempts : List LLMOutcome) (now : String) (raw_text : String)
    (source_name content_type created_date report_url : Option String)
    (db : List DBRow) : Except String (Bool × List DBRow) :=
  let localLoc := find_specific_haiti_location raw_text
  match process_with_gemini_pro attempts with
  | none => .error "AttributeError: get on None"
  | some ai =>
    let final_location :=
      match localLoc with
      | some m =>
        if ai.location == "" || decide (m.name.length > ai.location.length) then m.name
        else ai.location
      | none => ai.location
    let coords := get_location_coordinates final_location
    let location_coords := mkLocationCoords coords
    let location_metadata :=
      match localLoc with
      | some m => jsonDumpsMeta m.ltype m.parent "high"
      | none => jsonDumpsMeta "unknown" "" (if final_location != "" then "medium" else "low")
    let row : DBRow :=
      { timestamp := now, raw_text := raw_text, title := pyTitleTrunc raw_text,
        event_type := ai.event_type, location_text := final_location,
        location_coords := location_coords, latitude := coords.1, longitude := coords.2,
        location_metadata := some location_metadata,
        source_name := pyOrStr source_name "Manual Input",
        content_type := pyOrStr content_type "manual",
        severity := ai.severity, report_url := report_url,
        created_date := pyOrStr created_date now }
    .ok (true, db ++ [row])

/- ===================== dashboard.py ===================== -/

/-- One row of the loaded dashboard frame.  Dates are modelled as the
integers pandas to_datetime produces (seconds; none is NaT, from a NULL
or unparsable value); severity none is a NULL severity. -/
structure DRow where
  event_type : Option String
  severity : Option Int
  location_text : Option String
  location_coords : Option String
  created_date : Option Int
  timestamp : Option Int
deriving DecidableEq

/-- dashboard.py lines 196-199: the conflict-only allow-list. -/
def conflict_set : List String :=
  ["violence", "kidnapping", "sexual_violence", "displacement", "protest",
   "looting", "roadblock"]

/-- The sidebar widget state of dashboard.py lines 144-181. -/
structure WidgetState where
  event_types : List String
  sevLo : Int
  sevHi : Int
  areas : List String
  conflict_only : Bool
  date_range : Option (Int × Int)
deriving DecidableEq

/-- timedelta(days=1) in the integer time model. -/
def oneDay : Int := 86400

/-- dashboard.py lines 204-207: created_date with timestamp as the
fillna fallback (none when both are NaT). -/
def effectiveDate (r : DRow) : Option Int :=
  r.created_date.orElse (fun _ => r.timestamp)

/-- dashboard.py lines 184-208: the AND-composed filter pipeline --
severity range, event-type multiselect (skipped when empty), location
multiselect (skipped when empty), conflict-only allow-list, then the
half-open date window [start, end + 1 day) on the effective date.
Pandas comparisons against NaN/NaT are false, so rows with a missing
field fail the corresponding applied filter. -/
def applyFilters (df : List DRow) (w : WidgetState) : List DRow :=
  let f1 := df.filter (fun r => match r.severity with
    | some s => decide (w.sevLo ≤ s) && decide (s ≤ w.sevHi)
    | none => false)
  let f2 := if w.event_types.isEmpty then f1
    else f1.filter (fun r => match r.event_type with
      | some e => w.event_types.contains e
      | none => false)
  let f3 := if w.areas.isEmpty then f2
    else f2.filter (fun r => match r.location_text with
      | some a => w.areas.contains a
      | none => false)
  let f4 := if w.conflict_only then
      f3.filter (fun r => match r.event_type with
        | some e => conflict_set.contains e
        | none => false)
    else f3
  match w.date_range with
  | some se => f4.filter (fun r => match effectiveDate r with
      | some d => decide (se.1 ≤ d) && decide (d < se.2 + oneDay)
      | none => false)
  | none => f4

/-- dashboard.py lines 145-149: the Event Type multiselect default --
all distinct non-null event types (selection order is irrelevant to
membership, so sorting is not modelled). -/
def defaultEventTypes (df : List DRow) : List String :=
  (df.filterMap (fun r => r.event_type)).dedup

/-- dashboard.py lines 155-159: the Locations multiselect default --
all distinct non-null location_text values. -/
def defaultAreas (df : List DRow) : List String :=
  (df.filterMap (fun r => r.location_text)).dedup

/-- Truncation of a time value to its calendar date (the .date() calls
of dashboard.py lines 172-179). -/
def dayFloor (t : Int) : Int := (t.fdiv oneDay) * oneDay

/-- dashboard.py lines 165-181: the date widget default range -- the
min and max effective date of the whole frame, or a 30-day window
ending now when every date is missing. -/
def defaultDateRange (nowDate : Int) (df : List DRow) : Int × Int :=
  match df.filterMap effectiveDate with
  | [] => (dayFloor (nowDate - 30 * oneDay), dayFloor nowDate)
  | d :: rest => (dayFloor (rest.foldl min d), dayFloor (rest.foldl max d))

/-- The dashboard widget state before any user interaction: all event
types, severity (1,5), all non-null locations, conflict-only checked,
full date range. -/
def defaultState (nowDate : Int) (df : List DRow) : WidgetState :=
  { event_types := defaultEventTypes df, sevLo := 1, sevHi := 5,
    areas := defaultAreas df, conflict_only := true,
    date_range := some (defaultDateRange nowDate df) }

/- ============ concrete instances used by witnesses and
   counterexamples ============ -/

/-- A geocoder stub that resolves nothing. -/
def geoNone : String → Option String := fun _ => none

/-- The json.dumps output for an unresolved location. -/
def metaUnknown : String :=
  "\x7b\"type\": \"unknown\", \"parent\": \"\", \"precision\": \"low\"\x7d"

/-- The json.dumps output for a Port-au-Prince neighborhood match. -/
def metaPaPNbhd : String :=
  "\x7b\"type\": \"neighborhood\", \"parent\": \"Port-au-Prince\", \"precision\": \"high\"\x7d"

/-- An LLM outcome with an out-of-range severity. -/
def c2AO : LLMOutcome :=
  .parsed (.obj [("event_type", .str "violence"), ("location", .str "Delmas"),
    ("severity", .int 9)])

/-- A harvester document mentioning Delmas. -/
def c2CD : ContentData :=
  ⟨"Armed attack in Delmas", "t", "s", "reports", "2024-01-01", "https://u"⟩

/-- The record the harvester produces for c2CD under c2AO. -/
def c2Rec : HarvRecord :=
  ⟨"Armed attack in Delmas", "t", "violence", "Delmas", none, "s", "reports",
   .int 3, "2024-01-01", "https://u"⟩

/-- A harvester document whose text names a disaster. -/
def c3CD : ContentData :=
  ⟨"Flood waters rising in Gonaives", "t", "s", "reports", "d", "u"⟩

/-- A conflict document mentioning Martissant. -/
def c3CD2 : ContentData :=
  ⟨"Gang violence in Martissant now", "t", "s", "reports", "d", "u"⟩

/-- The fallback record the harvester produces for c3CD2. -/
def c3Rec : HarvRecord :=
  ⟨"Gang violence in Martissant now", "t", "violence", "Martissant", none, "s",
   "reports", .int 3, "d", "u"⟩

/-- The row the processor stores for the 9-character text "Too short". -/
def c4Row : DBRow :=
  ⟨"T0", "Too short", "Too short", "other", "", none, none, none,
   some metaUnknown, "Manual Input", "manual", 3, none, "T0"⟩

/-- A harvester record carrying a report url, for the de-dup witness. -/
def c1HarvRec : HarvRecord :=
  ⟨"Gang violence in Martissant now", "t", "violence", "Martissant", none, "s",
   "reports", .int 3, "d", "https://u"⟩

/-- The row the processor stores for "Gang attack in Delmas" at time T0. -/
def c1Row : DBRow :=
  ⟨"T0", "Gang attack in Delmas", "Gang attack in Delmas", "other", "Delmas",
   some "18.5456,-72.3084", some (mkRat 185456 10000), some (mkRat (-723084) 10000),
   some metaPaPNbhd, "Manual Input", "manual", 3, some "https://u", "T0"⟩

/-- The same insert repeated at time T1. -/
def c1Row2 : DBRow :=
  ⟨"T1", "Gang attack in Delmas", "Gang attack in Delmas", "other", "Delmas",
   some "18.5456,-72.3084", some (mkRat 185456 10000), some (mkRat (-723084) 10000),
   some metaPaPNbhd, "Manual Input", "manual", 3, some "https://u", "T1"⟩

/-- An LLM outcome whose location guess is exactly "Haiti". -/
def c5AO : LLMOutcome :=
  .parsed (.obj [("event_type", .str "violence"), ("location", .str "Haiti"),
    ("severity", .int 4)])

/-- The row the processor stores for a Tokyo text under the guess
"Haiti". -/
def c5Row : DBRow :=
  ⟨"T0", "Armed men attacked residents in Tokyo",
   "Armed men attacked residents in Tokyo", "violence", "Haiti", none, none, none,
   some metaPaPNbhd, "Manual Input", "manual", 4, none, "T0"⟩

/-- An LLM outcome guessing "Haiti" with a valid severity. -/
def c5AOw : LLMOutcome :=
  .parsed (.obj [("event_type", .str "violence"), ("location", .str "Haiti"),
    ("severity", .int 2)])

/-- A harvester document mentioning Jacmel. -/
def c5CDw : ContentData :=
  ⟨"Kidnapping reported in Jacmel", "t", "s", "reports", "d", "u"⟩

/-- The record the harvester produces for c5CDw under c5AOw. -/
def c5RecW : HarvRecord :=
  ⟨"Kidnapping reported in Jacmel", "t", "violence", "Jacmel", none, "s",
   "reports", .int 2, "d", "u"⟩

/-- The row the processor stores for "Kidnapping reported in Jacmel" on
LLM failure: the empty fallback guess is upgraded to the gazetteer
name. -/
def c5RowW : DBRow :=
  ⟨"T0", "Kidnapping reported in Jacmel", "Kidnapping reported in Jacmel",
   "other", "Jacmel", some "18.2333,-72.5333", some (mkRat 182333 10000),
   some (mkRat (-725333) 10000),
   some "\x7b\"type\": \"city\", \"parent\": \"Sud-Est\", \"precision\": \"high\"\x7d",
   "Manual Input", "manual", 3, none, "T0"⟩

/-- A well-formed classification dict. -/
def c6kvs : List (String × JVal) :=
  [("event_type", .str "violence"), ("location", .str "Delmas"), ("severity", .int 4)]

/-- The row the processor stores on LLM failure for a text holding
conflict keywords. -/
def c7Row : DBRow :=
  ⟨"T0", "Gang shooting downtown", "Gang shooting downtown", "other", "", none,
   none, none, some metaUnknown, "Manual Input", "manual", 3, none, "T0"⟩

/-- A conflict document mentioning Hinche. -/
def c7CD : ContentData :=
  ⟨"Armed clashes erupted in Hinche", "t", "s", "reports", "d", "u"⟩

/-- The fallback record the harvester produces for c7CD. -/
def c7Rec : HarvRecord :=
  ⟨"Armed clashes erupted in Hinche", "t", "violence", "Hinche", none, "s",
   "reports", .int 3, "d", "u"⟩

/-- A dashboard row inside the date window. -/
def c8Row : DRow := ⟨some "violence", some 3, some "Delmas", none, some 100, none⟩

/-- A widget state with the date range (0, 0). -/
def c8W : WidgetState := ⟨["violence"], 1, 5, ["Delmas"], true, some (0, 0)⟩

/-- The row the processor stores for "Clashes erupted in Delmas area". -/
def c9Row : DBRow :=
  ⟨"T0", "Clashes erupted in Delmas area", "Clashes erupted in Delmas area",
   "other", "Delmas", some "18.5456,-72.3084", some (mkRat 185456 10000),
   some (mkRat (-723084) 10000), some metaPaPNbhd, "Manual Input", "manual", 3, none, "T0"⟩

/-- A dashboard row with a NULL location_text that passes every default
filter. -/
def c10Row : DRow := ⟨some "violence", some 3, none, none, some 0, some 0⟩

/-- A dashboard row with a location, for the location-filter witness. -/
def c10WRow : DRow := ⟨some "violence", some 2, some "Hinche", none, some 0, some 0⟩

/-- A widget state selecting the location Hinche. -/
def c10W : WidgetState := ⟨["violence"], 1, 5, ["Hinche"], true, none⟩

/- ===================== helper lemmas ===================== -/

theorem pyToInt_severityCheck_ge (v : JVal) : 1 ≤ pyToInt (pySeverityCheck v) := by
  unfold pySeverityCheck
  split
  · next h =>
    simp only [Bool.and_eq_true, decide_eq_true_eq] at h
    exact h.1.2
  · norm_num [pyToInt]

theorem pyToInt_severityCheck_le (v : JVal) : pyToInt (pySeverityCheck v) ≤ 5 := by
  unfold pySeverityCheck
  split
  · next h =>
    simp only [Bool.and_eq_true, decide_eq_true_eq] at h
    exact h.2
  · norm_num [pyToInt]

theorem pySeverityCheck_invalid (v : JVal)
    (h : pyIsInstanceInt v = false ∨ pyToInt v < 1 ∨ 5 < pyToInt v) :
    pySeverityCheck v = .int 3 := by
  unfold pySeverityCheck
  split
  · next hc =>
    simp only [Bool.and_eq_true, decide_eq_true_eq] at hc
    rcases h with h | h | h
    · rw [hc.1.1] at h; cases h
    · omega
    · omega
  · rfl

theorem pyGet_pySet_same (kvs : List (String × JVal)) (k : String) (v d : JVal) :
    pyGet (pySet kvs k v) k d = v := by
  induction kvs with
  | nil => simp [pySet, pyGet, List.find?]
  | cons p rest ih =>
    by_cases hp : (p.1 == k) = true
    · simp [pySet, pyGet, hp, List.find?]
    · simp only [pySet, hp, Bool.false_eq_true, if_false]
      simpa [pyGet, List.find?, hp] using ih

theorem classify_eq_some (ao : LLMOutcome) (kvs : List (String × JVal))
    (h : classify_with_enhanced_ai ao = some kvs) :
    ∃ kvs0, ao = .parsed (.obj kvs0) ∧
      kvs = pySet kvs0 "severity" (pySeverityCheck (pyGet kvs0 "severity" (.int 3))) := by
  cases ao with
  | fail => simp [classify_with_enhanced_ai] at h
  | parsed v =>
    cases v with
    | obj kvs0 =>
      refine ⟨kvs0, rfl, ?_⟩
      simp only [classify_with_enhanced_ai, Option.some.injEq] at h
      exact h.symm
    | null => simp [classify_with_enhanced_ai] at h
    | bool b => simp [classify_with_enhanced_ai] at h
    | int n => simp [classify_with_enhanced_ai] at h
    | float q => simp [classify_with_enhanced_ai] at h
    | str s => simp [classify_with_enhanced_ai] at h
    | arr xs => simp [classify_with_enhanced_ai] at h

theorem is_conflict_related_nd (t : String) :
    is_conflict_related "natural_disaster" t = false := by
  simp [is_conflict_related]

theorem finishItem_some (geo : String → Option String) (cd : ContentData)
    (et : JVal) (loc : String) (sev : JVal) (r : HarvRecord)
    (h : finishItem geo cd et loc sev = some r) :
    is_conflict_related (normalize_event_type et cd.text) cd.text = true ∧
    r.event_type = normalize_event_type et cd.text ∧
    r.location_text = loc ∧ r.severity = sev ∧ r.text = cd.text := by
  unfold finishItem at h
  split at h
  · exact absurd h (by simp)
  · next hc =>
    cases Option.some.inj h
    refine ⟨?_, rfl, rfl, rfl, rfl⟩
    simpa using hc

theorem psi_inv (geo : String → Option String) (ao : LLMOutcome)
    (cdO : Option ContentData) (r : HarvRecord)
    (h : process_single_item geo ao cdO = .ok (some r)) :
    ∃ cd et loc sev, cdO = some cd ∧ finishItem geo cd et loc sev = some r ∧
      ((∃ kvs, classify_with_enhanced_ai ao = some kvs ∧ sev = pyGet kvs "severity" (.int 3))
        ∨ sev = .int 3) := by
  cases cdO with
  | none => simp [process_single_item] at h
  | some cd =>
    simp only [process_single_item] at h
    split at h
    · simp at h
    · split at h
      · next kvs hkvs =>
        split at h
        · next e he => exact absurd h (by simp)
        · next etv hetv =>
          split at h
          · next loc0 hloc0 =>
            exact ⟨cd, etv, _, _, rfl, Except.ok.inj h, .inl ⟨kvs, hkvs, rfl⟩⟩
          · exact absurd h (by simp)
      · next hnone =>
        refine ⟨cd, .str "other", (detect_location_fallback cd.text).getD "",
          .int 3, rfl, Except.ok.inj h, .inr rfl⟩

theorem psi_severity_bounds (geo : String → Option String) (ao : LLMOutcome)
    (cdO : Option ContentData) (r : HarvRecord)
    (h : process_single_item geo ao cdO = .ok (some r)) :
    1 ≤ pyToInt r.severity ∧ pyToInt r.severity ≤ 5 := by
  obtain ⟨cd, et, loc, sev, -, hfin, hsev⟩ := psi_inv geo ao cdO r h
  obtain ⟨-, -, -, hrs, -⟩ := finishItem_some _ _ _ _ _ _ hfin
  rw [hrs]
  rcases hsev with ⟨kvs, hc, rfl⟩ | rfl
  · obtain ⟨kvs0, -, rfl⟩ := classify_eq_some _ _ hc
    rw [pyGet_pySet_same]
    exact ⟨pyToInt_severityCheck_ge _, pyToInt_severityCheck_le _⟩
  · norm_num [pyToInt]

theorem processAttempt_severity (o : LLMOutcome) (c : Classification)
    (h : processAttempt o = some c) : 1 ≤ c.severity ∧ c.severity ≤ 5 := by
  have hclean : ∀ kvs, c = cleanParsed kvs → 1 ≤ c.severity ∧ c.severity ≤ 5 := by
    rintro kvs rfl
    exact ⟨pyToInt_severityCheck_ge _, pyToInt_severityCheck_le _⟩
  cases o with
  | fail => simp [processAttempt] at h
  | parsed v =>
    cases v with
    | obj kvs =>
      exact hclean kvs (by simpa [processAttempt] using h.symm)
    | arr xs =>
      cases xs with
      | nil =>
        simp only [processAttempt, Option.some.injEq] at h
        rw [← h]
        norm_num
      | cons x rest =>
        cases x with
        | obj kvs => exact hclean kvs (by simpa [processAttempt] using h.symm)
        | null => simp only [processAttempt, Option.some.injEq] at h; rw [← h]; norm_num
        | bool b => simp only [processAttempt, Option.some.injEq] at h; rw [← h]; norm_num
        | int n => simp only [processAttempt, Option.some.injEq] at h; rw [← h]; norm_num
        | float q => simp only [processAttempt, Option.some.injEq] at h; rw [← h]; norm_num
        | str s => simp only [processAttempt, Option.some.injEq] at h; rw [← h]; norm_num
        | arr ys => simp only [processAttempt, Option.some.injEq] at h; rw [← h]; norm_num
    | null => simp [processAttempt] at h
    | bool b => simp [processAttempt] at h
    | int n => simp [processAttempt] at h
    | float q => simp [processAttempt] at h
    | str s => simp [processAttempt] at h

theorem gemini_severity_bounds (l : List LLMOutcome) (c : Classification)
    (h : process_with_gemini_pro l = some c) : 1 ≤ c.severity ∧ c.severity ≤ 5 := by
  induction l with
  | nil => simp [process_with_gemini_pro] at h
  | cons o rest ih =>
    cases rest with
    | nil =>
      simp only [process_with_gemini_pro] at h
      cases hpa : processAttempt o with
      | some c0 =>
        rw [hpa] at h
        simp only [Option.getD_some, Option.some.injEq] at h
        exact h ▸ processAttempt_severity o c0 hpa
      | none =>
        rw [hpa] at h
        simp only [Option.getD_none, Option.some.injEq] at h
        rw [← h]
        norm_num
    | cons o2 rest2 =>
      simp only [process_with_gemini_pro] at h
      cases hpa : processAttempt o with
      | some c0 =>
        rw [hpa] at h
        simp only [Option.some.injEq] at h
        exact h ▸ processAttempt_severity o c0 hpa
      | none =>
        rw [hpa] at h
        exact ih h

theorem psi_fail_eq (geo : String → Option String) (cd : ContentData) :
    process_single_item geo .fail (some cd) =
      .ok (if cd.text.length < 20 then none
           else finishItem geo cd (.str "other")
             ((detect_location_fallback cd.text).getD "") (.int 3)) := by
  by_cases hl : cd.text.length < 20
  · simp [process_single_item, hl]
  · simp [process_single_item, hl, classify_with_enhanced_ai]

theorem gemini_all_fail (l : List LLMOutcome) (hne : l ≠ [])
    (hall : ∀ o ∈ l, o = .fail) :
    process_with_gemini_pro l = some ⟨"other", "", 3⟩ := by
  induction l with
  | nil => exact absurd rfl hne
  | cons o rest ih =>
    have ho : o = .fail := hall o (List.mem_cons_self o rest)
    subst ho
    cases rest with
    | nil => rfl
    | cons o2 rest2 =>
      have hrec : process_with_gemini_pro (o2 :: rest2) = some ⟨"other", "", 3⟩ :=
        ih (by simp) (fun o ho => hall o (List.mem_cons_of_mem _ ho))
      simpa [process_with_gemini_pro, processAttempt] using hrec

theorem countUrl_eq_countP (db : List DBRow) (u : String) :
    countUrl db u = db.countP (fun row => row.report_url == some u) := by
  simp [countUrl, List.countP_eq_length_filter]

theorem countUrl_pos_iff (db : List DBRow) (u : String) :
    (db.any (fun row => row.report_url == some u)) = true ↔ 0 < countUrl db u := by
  rw [countUrl_eq_countP, List.countP_pos_iff, List.any_eq_true]

theorem countUrl_append_row (db : List DBRow) (row : DBRow) (u : String) :
    countUrl (db ++ [row]) u =
      countUrl db u + (if row.report_url == some u then 1 else 0) := by
  simp [countUrl_eq_countP, List.countP_append, List.countP_cons]

theorem countUrl_store_fresh (now : String) (r : HarvRecord) (db : List DBRow)
    (h : db.any (fun row => row.report_url == some r.url) = false) :
    countUrl (store_content now r db).2 r.url = countUrl db r.url + 1 := by
  unfold store_content
  rw [h, Bool.and_false]
  simp only [Bool.false_eq_true, if_false]
  rw [countUrl_append_row]
  simp

theorem store_content_dup (now : String) (r : HarvRecord) (db : List DBRow)
    (hne : r.url ≠ "") (hpos : 0 < countUrl db r.url) :
    store_content now r db = (false, db) := by
  unfold store_content
  rw [(countUrl_pos_iff db r.url).mpr hpos, bne_iff_ne.mpr hne]
  rfl

theorem mkLocationCoords_none_iff (p : Option ℚ × Option ℚ) :
    mkLocationCoords p ≠ none ↔
      (∃ la, p.1 = some la ∧ la ≠ 0) ∧ (∃ lo, p.2 = some lo ∧ lo ≠ 0) := by
  obtain ⟨p1, p2⟩ := p
  cases p1 with
  | none => simp [mkLocationCoords]
  | some la =>
    cases p2 with
    | none => simp [mkLocationCoords]
    | some lo =>
      by_cases hla : la = 0
      · subst hla; simp [mkLocationCoords]
      · by_cases hlo : lo = 0
        · subst hlo; simp [mkLocationCoords, hla]
        · simp [mkLocationCoords, hla, hlo]

theorem mkLocationCoords_some (la lo : ℚ) (hla : la ≠ 0) (hlo : lo ≠ 0) :
    mkLocationCoords (some la, some lo) = some (floatRepr la ++ "," ++ floatRepr lo) := by
  simp [mkLocationCoords, hla, hlo]

theorem pasr_inv (attempts : List LLMOutcome) (now raw : String)
    (sn ct cdt url : Option String) (db : List DBRow) (b : Bool) (db' : List DBRow)
    (h : process_and_store_report attempts now raw sn ct cdt url db = .ok (b, db')) :
    ∃ ai row, process_with_gemini_pro attempts = some ai ∧ b = true ∧ db' = db ++ [row] ∧
      row.location_text = (match find_specific_haiti_location raw with
        | some m => if ai.location == "" || decide (m.name.length > ai.location.length)
                    then m.name else ai.location
        | none => ai.location) ∧
      row.latitude = (get_location_coordinates row.location_text).1 ∧
      row.longitude = (get_location_coordinates row.location_text).2 ∧
      row.location_coords = mkLocationCoords (get_location_coordinates row.location_text) ∧
      row.severity = ai.severity ∧ row.event_type = ai.event_type ∧
      row.raw_text = raw ∧ row.report_url = url := by
  simp only [process_and_store_report] at h
  split at h
  · exact absurd h (by simp)
  · next ai hai =>
    have h2 := Except.ok.inj h
    injection h2 with hb hdb
    exact ⟨ai, _, hai, hb.symm, hdb.symm, rfl, rfl, rfl, rfl, rfl, rfl, rfl, rfl⟩

theorem applyFilters_location (df : List DRow) (w : WidgetState) (r : DRow)
    (ha : w.areas ≠ []) (hr : r ∈ applyFilters df w) : r.location_text ≠ none := by
  have hEmpty : w.areas.isEmpty = false := by
    cases hw : w.areas with
    | nil => exact absurd hw ha
    | cons a l => rfl
  simp only [applyFilters] at hr
  split at hr
  · replace hr := List.mem_of_mem_filter hr
    split at hr
    · replace hr := List.mem_of_mem_filter hr
      rw [hEmpty] at hr
      simp only [Bool.false_eq_true, if_false] at hr
      have hp := (List.mem_filter.mp hr).2
      cases hl : r.location_text with
      | none => rw [hl] at hp; simp at hp
      | some a => simp [hl]
    · rw [hEmpty] at hr
      simp only [Bool.false_eq_true, if_false] at hr
      have hp := (List.mem_filter.mp hr).2
      cases hl : r.location_text with
      | none => rw [hl] at hp; simp at hp
      | some a => simp [hl]
  · split at hr
    · replace hr := List.mem_of_mem_filter hr
      rw [hEmpty] at hr
      simp only [Bool.false_eq_true, if_false] at hr
      have hp := (List.mem_filter.mp hr).2
      cases hl : r.location_text with
      | none => rw [hl] at hp; simp at hp
      | some a => simp [hl]
    · rw [hEmpty] at hr
      simp only [Bool.false_eq_true, if_false] at hr
      have hp := (List.mem_filter.mp hr).2
      cases hl : r.location_text with
      | none => rw [hl] at hp; simp at hp
      | some a => simp [hl]

/- ===================== claim theorems ===================== -/

/-- C2: every severity that reaches a stored record -- through the
harvester classification path or the processor one -- is an integer
between 1 and 5, and any severity value that is missing the int check
or out of range is coerced to 3 by the shared validation. -/
theorem claim_c2_severity_clamped :
    (∀ (geo : String → Option String) (ao : LLMOutcome) (cdO : Option ContentData)
       (r : HarvRecord), process_single_item geo ao cdO = .ok (some r) →
       1 ≤ pyToInt r.severity ∧ pyToInt r.severity ≤ 5) ∧
    (∀ (l : List LLMOutcome) (c : Classification),
       process_with_gemini_pro l = some c → 1 ≤ c.severity ∧ c.severity ≤ 5) ∧
    (∀ v : JVal, pyIsInstanceInt v = false ∨ pyToInt v < 1 ∨ 5 < pyToInt v →
       pySeverityCheck v = .int 3) :=
  ⟨psi_severity_bounds, gemini_severity_bounds, pySeverityCheck_invalid⟩

/-- C2 witness: a severity of 9 is stored as 3 on the harvester path, a
failed processor call yields severity 3, and value 9 itself is coerced
to 3. -/
theorem claim_c2_severity_clamped_witness :
    (1 ≤ pyToInt c2Rec.severity ∧ pyToInt c2Rec.severity ≤ 5) ∧
    (1 ≤ (Classification.mk "other" "" 3).severity ∧
      (Classification.mk "other" "" 3).severity ≤ 5) ∧
    pySeverityCheck (.int 9) = .int 3 :=
  ⟨claim_c2_severity_clamped.1 geoNone c2AO (some c2CD) c2Rec (by rfl),
   claim_c2_severity_clamped.2.1 [.fail] (Classification.mk "other" "" 3) (by rfl),
   claim_c2_severity_clamped.2.2 (.int 9) (by right; right; decide)⟩

/-- C3: a document whose normalized event type is natural_disaster
produces no row: the shared ingestion tail returns None on it, and no
record ever returned by process_single_item carries the event type
natural_disaster. -/
theorem claim_c3_disaster_filtered :
    (∀ (geo : String → Option String) (ao : LLMOutcome) (cdO : Option ContentData)
       (r : HarvRecord), process_single_item geo ao cdO = .ok (some r) →
       r.event_type ≠ "natural_disaster") ∧
    (∀ (geo : String → Option String) (cd : ContentData) (et : JVal) (loc : String)
       (sev : JVal), normalize_event_type et cd.text = "natural_disaster" →
       finishItem geo cd et loc sev = none) := by
  constructor
  · intro geo ao cdO r h
    obtain ⟨cd, et, loc, sev, -, hfin, -⟩ := psi_inv geo ao cdO r h
    obtain ⟨hconf, hret, -⟩ := finishItem_some _ _ _ _ _ _ hfin
    intro hnd
    rw [hret] at hnd
    rw [hnd, is_conflict_related_nd] at hconf
    cases hconf
  · intro geo cd et loc sev hnorm
    unfold finishItem
    rw [hnorm, is_conflict_related_nd]
    rfl

/-- C3 witness: a conflict record comes out with a non-disaster type,
and a document normalizing to natural_disaster is dropped by the shared
tail. -/
theorem claim_c3_disaster_filtered_witness :
    c3Rec.event_type ≠ "natural_disaster" ∧
    finishItem geoNone c3CD (.str "flood") "" (.int 3) = none :=
  ⟨claim_c3_disaster_filtered.1 geoNone .fail (some c3CD2) c3Rec (by rfl),
   claim_c3_disaster_filtered.2 geoNone c3CD (.str "flood") "" (.int 3) (by rfl)⟩

/-- C4 (amended): the harvester drops documents shorter than 20
characters as a normal outcome (ok none); the processor entry point has
no minimum-length gate -- whenever it returns normally it appends one
row regardless of how short the text is. -/
theorem claim_c4_short_text :
    (∀ (geo : String → Option String) (ao : LLMOutcome) (cd : ContentData),
       cd.text.length < 20 → process_single_item geo ao (some cd) = .ok none) ∧
    (∀ (attempts : List LLMOutcome) (now raw : String) (sn ct cdt url : Option String)
       (db : List DBRow) (b : Bool) (db' : List DBRow), raw.length < 20 →
       process_and_store_report attempts now raw sn ct cdt url db = .ok (b, db') →
       db'.length = db.length + 1) := by
  constructor
  · intro geo ao cd h
    simp [process_single_item, h]
  · intro attempts now raw sn ct cdt url db b db' hlen h
    obtain ⟨ai, row, -, -, hdb, -⟩ := pasr_inv attempts now raw sn ct cdt url db b db' h
    rw [hdb]
    simp

/-- C4 counterexample: the processor stores the 9-character text
"Too short" as a full row instead of dropping it. -/
theorem claim_c4_counterexample :
    ("Too short").length < 20 ∧
    process_and_store_report [.fail] "T0" "Too short" none none none none [] =
      .ok (true, [c4Row]) :=
  ⟨by decide, by rfl⟩

/-- C4 witness: a 3-character harvester document is dropped, and the
processor run on "Too short" grows the table by one row. -/
theorem claim_c4_short_text_witness :
    process_single_item geoNone .fail (some ⟨"hey", "t", "s", "reports", "d", "u"⟩) =
      .ok none ∧
    ([c4Row] : List DBRow).length = ([] : List DBRow).length + 1 :=
  ⟨claim_c4_short_text.1 geoNone .fail ⟨"hey", "t", "s", "reports", "d", "u"⟩ (by decide),
   claim_c4_short_text.2 [.fail] "T0" "Too short" none none none none [] true [c4Row]
     (by decide) (by rfl)⟩

/-- C6 (amended): the processor parse treats a JSON array holding one
object exactly as that object; the harvester classifier instead answers
None (triggering its fallback) on every array response. -/
theorem claim_c6_array_of_one :
    (∀ kvs : List (String × JVal),
       processAttempt (.parsed (.arr [.obj kvs])) = processAttempt (.parsed (.obj kvs))) ∧
    (∀ xs : List JVal, classify_with_enhanced_ai (.parsed (.arr xs)) = none) :=
  ⟨fun _ => rfl, fun _ => rfl⟩

/-- C6 counterexample: on a one-object array the harvester classifier
returns None while the bare object parses successfully, so the two parse
results differ. -/
theorem claim_c6_counterexample :
    classify_with_enhanced_ai (.parsed (.arr [.obj c6kvs])) = none ∧
    classify_with_enhanced_ai (.parsed (.obj c6kvs)) = some c6kvs ∧
    classify_with_enhanced_ai (.parsed (.arr [.obj c6kvs])) ≠
      classify_with_enhanced_ai (.parsed (.obj c6kvs)) := by
  refine ⟨rfl, by rfl, ?_⟩
  intro h
  rw [show classify_with_enhanced_ai (.parsed (.arr [.obj c6kvs])) = none from rfl,
      show classify_with_enhanced_ai (.parsed (.obj c6kvs)) = some c6kvs from rfl] at h
  exact Option.noConfusion h

/-- C1 (amended): the harvester store is idempotent per report url --
starting from a table without the url, two stores of records carrying
the same non-empty url leave at most one matching row, because a store
against a table already holding the url returns False and leaves the
table unchanged.  (The processor path performs no such lookup; see the
counterexample.) -/
theorem claim_c1_dedup :
    (∀ (now1 now2 : String) (r1 r2 : HarvRecord) (db : List DBRow) (u : String),
       u ≠ "" → r1.url = u → r2.url = u → countUrl db u = 0 →
       countUrl (store_content now2 r2 (store_content now1 r1 db).2).2 u ≤ 1) ∧
    (∀ (now : String) (r : HarvRecord) (db : List DBRow),
       r.url ≠ "" → 0 < countUrl db r.url → store_content now r db = (false, db)) := by
  constructor
  · intro now1 now2 r1 r2 db u hu h1 h2 h0
    subst h1
    have hany : db.any (fun row => row.report_url == some r1.url) = false := by
      rw [← Bool.not_eq_true, countUrl_pos_iff, h0]
      omega
    have hc1 : countUrl (store_content now1 r1 db).2 r1.url = 1 := by
      rw [countUrl_store_fresh now1 r1 db hany, h0]
    have hskip := store_content_dup now2 r2 (store_content now1 r1 db).2
      (by rw [h2]; exact hu) (by rw [h2, hc1]; omega)
    rw [hskip]
    exact hc1.le
  · exact store_content_dup

/-- C1 witness: two harvester stores of the same url leave one row, and
a store against a table holding the url is a skip. -/
theorem claim_c1_dedup_witness :
    countUrl (store_content "T1" c1HarvRec (store_content "T0" c1HarvRec []).2).2
      "https://u" ≤ 1 ∧
    store_content "T1" c1HarvRec (store_content "T0" c1HarvRec []).2 =
      (false, (store_content "T0" c1HarvRec []).2) :=
  ⟨claim_c1_dedup.1 "T0" "T1" c1HarvRec c1HarvRec [] "https://u"
     (by decide) rfl rfl (by decide),
   claim_c1_dedup.2 "T1" c1HarvRec (store_content "T0" c1HarvRec []).2
     (by decide) (by decide)⟩

/-- C1 counterexample: two processor ingestions carrying the same
non-empty report_url insert two rows -- process_and_store_report never
looks the url up before its INSERT. -/
theorem claim_c1_counterexample :
    process_and_store_report [.fail, .fail, .fail] "T0" "Gang attack in Delmas"
      none none none (some "https://u") [] = .ok (true, [c1Row]) ∧
    process_and_store_report [.fail, .fail, .fail] "T1" "Gang attack in Delmas"
      none none none (some "https://u") [c1Row] = .ok (true, [c1Row, c1Row2]) ∧
    countUrl [c1Row, c1Row2] "https://u" = 2 :=
  ⟨by rfl, by rfl, by rfl⟩

/-- C5 (amended): with a classifier location guess of "Haiti"
(case-insensitive, after strip) or empty, the harvester always replaces
the guess by its gazetteer match; the processor replaces the guess only
when the guess is empty or strictly shorter than the gazetteer name, so
a guess of "Haiti" survives a 5-character gazetteer match such as
"Tokyo" or "Cayes" (see the counterexample). -/
theorem claim_c5_location_upgrade :
    (∀ (geo : String → Option String) (ao : LLMOutcome) (cd : ContentData)
       (kvs : List (String × JVal)) (g fb : String) (r : HarvRecord),
       classify_with_enhanced_ai ao = some kvs →
       pyGet kvs "location" (.str "") = .str g →
       (pyLower (pyStrip g) = "haiti" ∨ pyStrip g = "") →
       detect_location_fallback cd.text = some fb →
       process_single_item geo ao (some cd) = .ok (some r) →
       r.location_text = fb) ∧
    (∀ (attempts : List LLMOutcome) (now raw : String) (sn ct cdt url : Option String)
       (db : List DBRow) (c : Classification) (m : LocMatch) (b : Bool)
       (db' : List DBRow),
       process_with_gemini_pro attempts = some c →
       find_specific_haiti_location raw = some m →
       (c.location = "" ∨ c.location.length < m.name.length) →
       process_and_store_report attempts now raw sn ct cdt url db = .ok (b, db') →
       ∃ row, db' = db ++ [row] ∧ row.location_text = m.name) := by
  constructor
  · intro geo ao cd kvs g fb r hc hloc hg hfb h
    simp only [process_single_item] at h
    split at h
    · simp at h
    · split at h
      · next kvs2 hkvs2 =>
        rw [hc] at hkvs2
        cases Option.some.inj hkvs2
        split at h
        · simp at h
        · next etv hetv =>
          split at h
          · next loc0 hloc0 =>
            rw [hloc] at hloc0
            cases JVal.str.inj hloc0
            have hcond : (pyLower (pyStrip g) == "haiti" || pyStrip g == "") = true := by
              rcases hg with hg | hg <;> simp [hg]
            rw [if_pos hcond, hfb] at h
            obtain ⟨-, -, hl, -⟩ := finishItem_some _ _ _ _ _ _ (Except.ok.inj h)
            exact hl
          · simp at h
      · next hnone =>
        rw [hc] at hnone
        cases hnone
  · intro attempts now raw sn ct cdt url db c m b db' hgem hfind hlen h
    obtain ⟨ai, row, hai, -, hdb, hlocrow, -⟩ :=
      pasr_inv attempts now raw sn ct cdt url db b db' h
    rw [hgem] at hai
    cases Option.some.inj hai
    refine ⟨row, hdb, ?_⟩
    rw [hlocrow, hfind]
    have hcond : (c.location == "" || decide (m.name.length > c.location.length)) = true := by
      rcases hlen with hl | hl
      · simp [hl]
      · simp [hl]
    simp only [hcond, if_true]

/-- C5 witness: a "Haiti" guess is upgraded to "Jacmel" on the harvester
path, and the processor upgrades an empty fallback guess to the
gazetteer name. -/
theorem claim_c5_location_upgrade_witness :
    c5RecW.location_text = "Jacmel" ∧
    (∃ row, [c5RowW] = [] ++ [row] ∧ row.location_text = "Jacmel") :=
  ⟨claim_c5_location_upgrade.1 geoNone c5AOw c5CDw
     [("event_type", .str "violence"), ("location", .str "Haiti"), ("severity", .int 2)]
     "Haiti" "Jacmel" c5RecW (by rfl) (by rfl) (.inl (by rfl)) (by rfl) (by rfl),
   claim_c5_location_upgrade.2 [.fail] "T0" "Kidnapping reported in Jacmel"
     none none none none [] ⟨"other", "", 3⟩ ⟨"Jacmel", "city", "Sud-Est", "jacmel"⟩
     true [c5RowW] (by rfl) (by rfl) (.inl rfl) (by rfl)⟩

/-- C5 counterexample: the text names the gazetteer location "Tokyo",
the classifier guesses exactly "Haiti", and the processor stores
location_text "Haiti" -- the gazetteer name is not preferred because it
is not strictly longer than the guess. -/
theorem claim_c5_counterexample :
    find_specific_haiti_location "Armed men attacked residents in Tokyo" =
      some ⟨"Tokyo", "neighborhood", "Port-au-Prince", "tokyo"⟩ ∧
    process_with_gemini_pro [c5AO] = some ⟨"violence", "Haiti", 4⟩ ∧
    process_and_store_report [c5AO] "T0" "Armed men attacked residents in Tokyo"
      none none none none [] = .ok (true, [c5Row]) ∧
    c5Row.location_text = "Haiti" :=
  ⟨by rfl, by rfl, by rfl, rfl⟩

/-- C7 (amended): when the LLM call fails, neither ingestion path
raises.  The harvester falls back to severity 3 with the event type
produced by deterministic local keyword matching and the gazetteer
location (or empty).  The processor retry loop instead returns the fixed
dict ("other", "", 3) -- its event type is always "other", with only the
location upgraded from the gazetteer afterwards (see the
counterexample). -/
theorem claim_c7_llm_failure_fallback :
    (∀ (geo : String → Option String) (cdO : Option ContentData),
       ∃ out, process_single_item geo .fail cdO = .ok out) ∧
    (∀ (geo : String → Option String) (cd : ContentData) (r : HarvRecord),
       process_single_item geo .fail (some cd) = .ok (some r) →
       r.severity = .int 3 ∧ r.event_type = normalize_event_type (.str "other") cd.text ∧
       r.location_text = (detect_location_fallback cd.text).getD "") ∧
    (∀ l : List LLMOutcome, l ≠ [] → (∀ o ∈ l, o = .fail) →
       process_with_gemini_pro l = some ⟨"other", "", 3⟩) ∧
    (∀ (attempts : List LLMOutcome) (now raw : String) (sn ct cdt url : Option String)
       (db : List DBRow), attempts ≠ [] → (∀ o ∈ attempts, o = .fail) →
       ∃ row, process_and_store_report attempts now raw sn ct cdt url db =
           .ok (true, db ++ [row]) ∧
         row.severity = 3 ∧ row.event_type = "other" ∧
         row.location_text =
           ((find_specific_haiti_location raw).map (fun m => m.name)).getD "") := by
  refine ⟨?_, ?_, gemini_all_fail, ?_⟩
  · intro geo cdO
    cases cdO with
    | none => exact ⟨none, rfl⟩
    | some cd => exact ⟨_, psi_fail_eq geo cd⟩
  · intro geo cd r h
    rw [psi_fail_eq] at h
    split at h
    · simp at h
    · obtain ⟨-, he, hl, hs, -⟩ := finishItem_some _ _ _ _ _ _ (Except.ok.inj h)
      exact ⟨hs, he, hl⟩
  · intro attempts now raw sn ct cdt url db hne hall
    have hg := gemini_all_fail attempts hne hall
    simp only [process_and_store_report, hg]
    refine ⟨_, rfl, rfl, rfl, ?_⟩
    cases hf : find_specific_haiti_location raw with
    | none => simp [hf]
    | some m => simp [hf]

/-- C7 witness: concrete instantiation of the four fallback facts. -/
theorem claim_c7_llm_failure_fallback_witness :
    (∃ out, process_single_item geoNone .fail (some c7CD) = .ok out) ∧
    (c7Rec.severity = .int 3 ∧
     c7Rec.event_type = normalize_event_type (.str "other") c7CD.text ∧
     c7Rec.location_text = (detect_location_fallback c7CD.text).getD "") ∧
    process_with_gemini_pro [.fail, .fail] = some ⟨"other", "", 3⟩ ∧
    (∃ row, process_and_store_report [.fail, .fail] "T0" "Armed clashes near Hinche"
        none none none none [] = .ok (true, [] ++ [row]) ∧
      row.severity = 3 ∧ row.event_type = "other" ∧
      row.location_text =
        ((find_specific_haiti_location "Armed clashes near Hinche").map
          (fun m => m.name)).getD "") :=
  ⟨claim_c7_llm_failure_fallback.1 geoNone (some c7CD),
   claim_c7_llm_failure_fallback.2.1 geoNone c7CD c7Rec (by rfl),
   claim_c7_llm_failure_fallback.2.2.1 [.fail, .fail] (List.cons_ne_nil _ _)
     (by intro o ho
         simp only [List.mem_cons, List.not_mem_nil, or_false] at ho
         rcases ho with rfl | rfl <;> rfl),
   claim_c7_llm_failure_fallback.2.2.2 [.fail, .fail] "T0" "Armed clashes near Hinche"
     none none none none [] (List.cons_ne_nil _ _)
     (by intro o ho
         simp only [List.mem_cons, List.not_mem_nil, or_false] at ho
         rcases ho with rfl | rfl <;> rfl)⟩

/-- C7 counterexample: on LLM failure over a text full of conflict
keywords the processor stores event type "other", although the
deterministic keyword matcher the claim describes (as implemented by the
harvester) classifies the same text as "violence". -/
theorem claim_c7_counterexample :
    process_and_store_report [.fail, .fail, .fail] "T0" "Gang shooting downtown"
      none none none none [] = .ok (true, [c7Row]) ∧
    c7Row.event_type = "other" ∧
    conflict_keywords.any (fun k => strContains (pyLower "Gang shooting downtown") k)
      = true ∧
    normalize_event_type (.str "other") "Gang shooting downtown" = "violence" :=
  ⟨by rfl, rfl, by rfl, by rfl⟩

/-- C8: every row that survives a (start, end) date-range filter has its
effective date -- created_date with timestamp as fallback -- inside the
half-open window from start to end plus one day. -/
theorem claim_c8_date_window (df : List DRow) (w : WidgetState) (s e : Int) (r : DRow)
    (hw : w.date_range = some (s, e)) (hr : r ∈ applyFilters df w) :
    ∃ d, effectiveDate r = some d ∧ s ≤ d ∧ d < e + oneDay := by
  simp only [applyFilters, hw] at hr
  have hp := (List.mem_filter.mp hr).2
  cases hd : effectiveDate r with
  | none => rw [hd] at hp; simp at hp
  | some d =>
    rw [hd] at hp
    simp only [Bool.and_eq_true, decide_eq_true_eq] at hp
    exact ⟨d, rfl, hp.1, hp.2⟩

/-- C8 witness: the surviving row has effective date 100 inside
[0, 86400). -/
theorem claim_c8_date_window_witness :
    ∃ d, effectiveDate c8Row = some d ∧ 0 ≤ d ∧ d < 0 + oneDay :=
  claim_c8_date_window [c8Row] c8W 0 0 c8Row rfl (by decide)

/-- C9: every row written by the processor keeps its two coordinate
encodings consistent -- location_coords is non-null exactly when both
the stored latitude and longitude are non-null and nonzero, and then it
is the comma join of the rendered latitude and longitude written to the
same row. -/
theorem claim_c9_coords_agree (attempts : List LLMOutcome) (now raw : String)
    (sn ct cdt url : Option String) (db : List DBRow) (b : Bool) (db' : List DBRow)
    (h : process_and_store_report attempts now raw sn ct cdt url db = .ok (b, db')) :
    ∃ row, db' = db ++ [row] ∧
      (row.location_coords ≠ none ↔
        (∃ la, row.latitude = some la ∧ la ≠ 0) ∧
        (∃ lo, row.longitude = some lo ∧ lo ≠ 0)) ∧
      (∀ la lo, row.latitude = some la → row.longitude = some lo → la ≠ 0 → lo ≠ 0 →
        row.location_coords = some (floatRepr la ++ "," ++ floatRepr lo)) := by
  obtain ⟨ai, row, -, -, hdb, -, hlat, hlon, hcoords, -⟩ :=
    pasr_inv attempts now raw sn ct cdt url db b db' h
  refine ⟨row, hdb, ?_, ?_⟩
  · rw [hcoords, hlat, hlon]
    exact mkLocationCoords_none_iff _
  · intro la lo h1 h2 h3 h4
    rw [hlat] at h1
    rw [hlon] at h2
    rw [hcoords, show get_location_coordinates row.location_text = (some la, some lo)
      from Prod.ext h1 h2]
    exact mkLocationCoords_some la lo h3 h4

/-- C9 witness: the Delmas row carries location_coords
"18.5456,-72.3084" agreeing with its latitude and longitude columns. -/
theorem claim_c9_coords_agree_witness :
    ∃ row, [c9Row] = [] ++ [row] ∧
      (row.location_coords ≠ none ↔
        (∃ la, row.latitude = some la ∧ la ≠ 0) ∧
        (∃ lo, row.longitude = some lo ∧ lo ≠ 0)) ∧
      (∀ la lo, row.latitude = some la → row.longitude = some lo → la ≠ 0 → lo ≠ 0 →
        row.location_coords = some (floatRepr la ++ "," ++ floatRepr lo)) :=
  claim_c9_coords_agree [.fail, .fail, .fail] "T0" "Clashes erupted in Delmas area"
    none none none none [] true [c9Row] (by rfl)

/-- C10 (amended): whenever the Locations multiselect holds a non-empty
selection, the filtered set contains no row with a NULL location_text;
under the default widget state this holds provided at least one row has
a non-null location_text.  (When every location_text is NULL the default
selection is empty, the filter is skipped, and NULL-location rows pass
-- see the counterexample.) -/
theorem claim_c10_null_locations :
    (∀ (df : List DRow) (w : WidgetState) (r : DRow),
       w.areas ≠ [] → r ∈ applyFilters df w → r.location_text ≠ none) ∧
    (∀ (nowD : Int) (df : List DRow) (r : DRow), defaultAreas df ≠ [] →
       r ∈ applyFilters df (defaultState nowD df) → r.location_text ≠ none) :=
  ⟨applyFilters_location,
   fun nowD df r h hr => applyFilters_location df (defaultState nowD df) r h hr⟩

/-- C10 witness: a located row surviving the filters has a non-null
location, under an explicit selection and under the default state. -/
theorem claim_c10_null_locations_witness :
    c10WRow.location_text ≠ none ∧ c10WRow.location_text ≠ none :=
  ⟨claim_c10_null_locations.1 [c10WRow] c10W c10WRow (by decide) (by decide),
   claim_c10_null_locations.2 0 [c10WRow] c10WRow (by decide) (by decide)⟩

/-- C10 counterexample: a frame whose only row has a NULL location_text
yields an empty default Locations selection, the location filter is
skipped, and the NULL-location row reaches the filtered set feeding
every metric, chart and export. -/
theorem claim_c10_counterexample :
    c10Row.location_text = none ∧
    defaultAreas [c10Row] = [] ∧
    c10Row ∈ applyFilters [c10Row] (defaultState 0 [c10Row]) :=
  ⟨rfl, by rfl, by decide⟩

end Haiti
